import Mathlib

/-!
Shallow embedding of the timed funding round Starknet contract
(`src/packages/prop-house-webapp/src/state/slices/propHouse.ts`, Cairo section).

Modelling conventions:
* Cairo `felt` values and `Uint256` values are embedded as `Nat`; `Uint256`
  overflow checks of the external `SafeUint256` library are explicit
  (`U256LIMIT` bound).
* An `Address` struct carries a single `value` field in the source; it is
  embedded as the bare `Nat` value.  A proposer address of `0` means the
  proposal does not exist.
* Each `@external` entrypoint becomes a function
  `... → Except String RoundStorage`.  A Cairo assert failure aborts and
  reverts the whole transaction, so `.error` means the call fails with the
  persisted state unchanged; `.ok s'` is the state after a successful call.
* `get_caller_address()` becomes an explicit `caller` argument and
  `get_block_timestamp()` an explicit `now` argument.
* External contracts are function parameters: the voting-power oracle
  (`IVotingStrategyRegistry` + `IVotingStrategy`) is `oracle : Nat → Nat → Nat`
  (timestamp, voter address ↦ power), the winner-selection / Merkle pipeline
  (`ProposalUtils.select_winners`, `ProposalUtils.generate_leaves`,
  `MerkleTree.get_merkle_root`, library files not present in this repository
  snapshot) is `computeRoot`, and `IExecutionStrategy.execute` is
  `execute : Nat → Nat → Bool` over the params `(round_id, merkle_root)`.
-/

def MAX_WINNERS : Nat := 256

def MAX_LOG_N_WINNERS : Nat := 8

def ETH_TX_AUTH_STRATEGY : Nat :=
  0x0042e5c568c94d100b3ebd4131e85bee11c8d678a2ea34b63c855b154e717b03

def ETH_SIG_AUTH_STRATEGY : Nat :=
  0x7de0e01d32c750081ca7f267532cc38e2ca3ab490359a077c322c3e9f4cb6bd2

/-- Modelled from the spec: `src/starknet/lib/round_state` is not under `src/`.
The spec names exactly three states: ACTIVE, EXECUTED (terminal),
CANCELLED (terminal). -/
inductive RoundState where
  | ACTIVE
  | EXECUTED
  | CANCELLED
deriving DecidableEq, Repr

/-- One entry of the `proposal_votes` array passed to `cast_votes`
(`src/starknet/lib/proposal_vote`, fields as used by the contract). -/
structure ProposalVote where
  proposal_id : Nat
  voting_power : Nat
deriving DecidableEq, Repr

/-- One entry of the proposal info array handed to winner selection
(`src/starknet/lib/proposal_info`, fields as used by the contract). -/
structure ProposalInfo where
  proposal_id : Nat
  proposer_address : Nat
  voting_power : Nat
deriving DecidableEq, Repr

/-- Pointwise map update, used to embed Cairo `@storage_var` maps. -/
def upd {α : Type} (f : Nat → α) (k : Nat) (v : α) : Nat → α :=
  fun x => if x = k then v else f x

def U256LIMIT : Nat := 2 ^ 256

/-- External library `openzeppelin.security.safemath.SafeUint256.add`:
checked 256-bit addition, aborts on overflow. -/
def SafeUint256.add (a b : Nat) : Except String Nat :=
  if a + b < U256LIMIT then .ok (a + b) else .error "SafeUint256: overflow"

/-- External library `openzeppelin.security.safemath.SafeUint256.sub_le`:
checked subtraction, aborts unless `b ≤ a`. -/
def SafeUint256.sub_le (a b : Nat) : Except String Nat :=
  if b ≤ a then .ok (a - b) else .error "SafeUint256: underflow"

/-- The contract's persisted storage variables (one field per `@storage_var`).
`voting_strategy_hashes_store` and `execution_strategy_store` only feed the
external call-outs and are absorbed into the `oracle` / `execute` parameters. -/
structure RoundStorage where
  round_id : Nat
  round_state : RoundState
  proposal_period_start_timestamp : Nat
  proposal_period_end_timestamp : Nat
  vote_period_end_timestamp : Nat
  winner_count : Nat
  next_proposal_nonce : Nat
  proposal_vote_power : Nat → Nat
  spent_voting_power : Nat → Nat
  proposer_address_registry : Nat → Nat
  cancelled_proposals : Nat → Bool

/-- Embeds `get_auth_strategy`: the inline `dw` table
`[ETH_TX_AUTH_STRATEGY, ETH_SIG_AUTH_STRATEGY]` read at `index`. -/
def get_auth_strategy (index : Nat) : Nat :=
  if index = 0 then ETH_TX_AUTH_STRATEGY else ETH_SIG_AUTH_STRATEGY

/-- Structural core of `is_valid_auth_strategy`: `remaining` counts the
strategies not yet scanned, i.e. `num_strategies - curr_index`, which the
source tests against zero via `num_strategies == curr_index`. -/
def scan_auth_strategies (caller_address curr_index : Nat) : Nat → Bool
  | 0 => false
  | remaining + 1 =>
    if caller_address = get_auth_strategy curr_index then true
    else scan_auth_strategies caller_address (curr_index + 1) remaining

/-- Embeds `is_valid_auth_strategy`: linear scan of the auth strategy table
from `curr_index` up to `num_strategies`.  Every reachable call has
`curr_index ≤ num_strategies` (it starts at 0 and grows by 1 until equal), so
the source's stopping test `num_strategies == curr_index` coincides with the
scanned count `num_strategies - curr_index` reaching zero. -/
def is_valid_auth_strategy (caller_address curr_index num_strategies : Nat) : Bool :=
  scan_auth_strategies caller_address curr_index (num_strategies - curr_index)

/-- Embeds `assert_valid_auth_strategy`: throws unless the caller address is a
member of the whitelisted auth strategy set. -/
def assert_valid_auth_strategy (caller_address : Nat) : Except String Unit :=
  if is_valid_auth_strategy caller_address 0 2 then .ok () else .error "Invalid auth strategy"

/-- Embeds `assert_round_active`: throws if the round is not in an active state. -/
def assert_round_active (s : RoundStorage) : Except String Unit :=
  if s.round_state = RoundState.ACTIVE then .ok () else .error "Round not active"

/-- Embeds `get_user_voting_power`: the voting-strategy registry lookup and the
`IVotingStrategy.get_voting_power` call-out are external contracts, abstracted
into the `oracle` parameter applied to the timestamp and voter address the
source forwards to them. -/
def get_user_voting_power (oracle : Nat → Nat → Nat)
    (current_timestamp voter_address : Nat) : Nat :=
  oracle current_timestamp voter_address

/-- Embeds the recursive `cast_proposal_votes`.  The source iterates with a
fixed base pointer `proposal_votes` and an advancing `current_index`; here
`proposal_votes` stays the full array and `rest` is its suffix from
`current_index` on.  Note the existence check mirrors the source exactly: it
reads `proposal_votes.proposal_id`, i.e. the `proposal_id` of array element 0,
not of the current entry `proposal_vote = proposal_votes[current_index]`. -/
def cast_proposal_votes (s : RoundStorage) (voter_address snapshot_timestamp : Nat)
    (proposal_votes rest : List ProposalVote)
    (user_voting_power_total user_voting_power_remaining : Nat) :
    Except String RoundStorage :=
  match rest with
  | [] => .ok s
  | proposal_vote :: rest =>
    let proposer_address := s.proposer_address_registry (proposal_votes.headD ⟨0, 0⟩).proposal_id
    if proposer_address = 0 then .error "Proposal does not exist"
    else if s.cancelled_proposals proposal_vote.proposal_id then .error "Proposal has been cancelled"
    else if proposal_vote.voting_power = 0 then .error "Voting power must be greater than zero"
    else if proposal_vote.voting_power ≤ user_voting_power_remaining then
      match SafeUint256.add proposal_vote.voting_power (s.proposal_vote_power proposal_vote.proposal_id) with
      | .error e => .error e
      | .ok new_proposal_voting_power =>
      match SafeUint256.sub_le user_voting_power_remaining proposal_vote.voting_power with
      | .error e => .error e
      | .ok new_remaining_voting_power =>
      match SafeUint256.sub_le user_voting_power_total new_remaining_voting_power with
      | .error e => .error e
      | .ok new_spent_voting_power =>
        cast_proposal_votes
          { s with
            proposal_vote_power :=
              upd s.proposal_vote_power proposal_vote.proposal_id new_proposal_voting_power,
            spent_voting_power :=
              upd s.spent_voting_power voter_address new_spent_voting_power }
          voter_address snapshot_timestamp proposal_votes rest
          user_voting_power_total new_remaining_voting_power
    else .error "Not enough voting power remaining for user"

/-- Embeds the `cast_votes` entrypoint. -/
def cast_votes (oracle : Nat → Nat → Nat) (caller now : Nat) (s : RoundStorage)
    (voter_address : Nat) (proposal_votes : List ProposalVote) :
    Except String RoundStorage :=
  match assert_valid_auth_strategy caller with
  | .error e => .error e
  | .ok _ =>
  match assert_round_active s with
  | .error e => .error e
  | .ok _ =>
    let snapshot_timestamp := s.proposal_period_end_timestamp
    let vote_period_start_timestamp := snapshot_timestamp + 1
    let vote_period_end_timestamp := s.vote_period_end_timestamp
    if now < vote_period_end_timestamp then
      if vote_period_start_timestamp ≤ now then
        let user_voting_power := get_user_voting_power oracle snapshot_timestamp voter_address
        if user_voting_power = 0 then .error "No voting power for user"
        else
          match SafeUint256.sub_le user_voting_power (s.spent_voting_power voter_address) with
          | .error e => .error e
          | .ok remaining_voting_power =>
            cast_proposal_votes s voter_address snapshot_timestamp
              proposal_votes proposal_votes user_voting_power remaining_voting_power
      else .error "Vote period has not started yet"
    else .error "Vote period has ended"

/-- Embeds the `propose` entrypoint (metadata is only echoed into the emitted
event, so it is omitted). -/
def propose (caller now : Nat) (s : RoundStorage) (proposer_address : Nat) :
    Except String RoundStorage :=
  match assert_valid_auth_strategy caller with
  | .error e => .error e
  | .ok _ =>
  match assert_round_active s with
  | .error e => .error e
  | .ok _ =>
    if now < s.proposal_period_end_timestamp then
      if s.proposal_period_start_timestamp ≤ now then
        let proposal_id := s.next_proposal_nonce
        .ok { s with
          proposer_address_registry :=
            upd s.proposer_address_registry proposal_id proposer_address,
          next_proposal_nonce := proposal_id + 1 }
      else .error "Proposal period has not started yet"
    else .error "Proposal period has ended"

/-- Structural core of `populate_proposal_info_arr`: `remaining` counts the
proposal ids not yet visited, i.e.
`next_unused_proposal_nonce - current_proposal_id`, which the source tests
against zero via `current_proposal_id == next_unused_proposal_nonce`. -/
def populate_proposal_info_go (s : RoundStorage) (remaining : Nat)
    (current_proposal_id current_index : Nat) (acc : List ProposalInfo) :
    List ProposalInfo × Nat :=
  match remaining with
  | 0 => (acc, current_index + 1)
  | remaining + 1 =>
    if s.cancelled_proposals current_proposal_id then
      populate_proposal_info_go s remaining (current_proposal_id + 1) current_index acc
    else
      populate_proposal_info_go s remaining (current_proposal_id + 1) (current_index + 1)
        (acc ++ [⟨current_proposal_id, s.proposer_address_registry current_proposal_id,
                 s.proposal_vote_power current_proposal_id⟩])

/-- Embeds the recursive `populate_proposal_info_arr`.  The Cairo accumulator
pointer becomes the list `acc` of entries written so far; the returned pair is
(entries written, the `proposal_info_len` value the source reports).  Every
reachable call has `current_proposal_id ≤ next_unused_proposal_nonce` (it
starts at 1 with nonce ≥ 2 and grows by 1 until equal), so the source's
stopping test coincides with the visit count reaching zero. -/
def populate_proposal_info_arr (s : RoundStorage)
    (next_unused_proposal_nonce current_proposal_id current_index : Nat)
    (acc : List ProposalInfo) : List ProposalInfo × Nat :=
  populate_proposal_info_go s (next_unused_proposal_nonce - current_proposal_id)
    current_proposal_id current_index acc

/-- Embeds the `finalize_round` entrypoint.  `computeRoot` abstracts the
external library pipeline `ProposalUtils.select_winners` (applied to
`(num_winners, active_submissions_len, active_submissions)`),
`ProposalUtils.generate_leaves` and `MerkleTree.get_merkle_root`;
`execute` abstracts the `IExecutionStrategy.execute` call-out on the execution
params `(round_id, merkle_root)`, `false` meaning the external call fails
(which aborts the transaction).  The source reads the caller implicitly via
the Starknet calling convention but never inspects it — no
`assert_valid_auth_strategy` is performed — so `caller` is an unused
argument. -/
def finalize_round (computeRoot : Nat → Nat → List ProposalInfo → Nat)
    (execute : Nat → Nat → Bool) (caller now : Nat) (s : RoundStorage) :
    Except String RoundStorage :=
  match assert_round_active s with
  | .error e => .error e
  | .ok _ =>
    if s.vote_period_end_timestamp < now then
      let num_winners := s.winner_count
      let next_unused_proposal_nonce := s.next_proposal_nonce
      if next_unused_proposal_nonce = 1 then .ok s
      else
        let res := populate_proposal_info_arr s next_unused_proposal_nonce 1 0 []
        let merkle_root := computeRoot num_winners res.2 res.1
        if execute s.round_id merkle_root then
          .ok { s with round_state := RoundState.EXECUTED }
        else .error "Execution strategy call failed"
    else .error "Vote period has not ended"

/-- Embeds the `cancel_round` entrypoint. -/
def cancel_round (caller : Nat) (s : RoundStorage) : Except String RoundStorage :=
  match assert_valid_auth_strategy caller with
  | .error e => .error e
  | .ok _ =>
  match assert_round_active s with
  | .error e => .error e
  | .ok _ => .ok { s with round_state := RoundState.CANCELLED }

/-- Embeds the `cancel_proposal` entrypoint.  Beyond the auth strategy
whitelist check it takes no identity of the party requesting cancellation:
the source reads only `cancelled_proposals_store` and
`proposer_address_registry_store` for validation. -/
def cancel_proposal (caller : Nat) (s : RoundStorage) (proposal_id : Nat) :
    Except String RoundStorage :=
  match assert_valid_auth_strategy caller with
  | .error e => .error e
  | .ok _ =>
  match assert_round_active s with
  | .error e => .error e
  | .ok _ =>
    if s.cancelled_proposals proposal_id then .error "Proposal already cancelled"
    else if s.proposer_address_registry proposal_id = 0 then .error "Invalid proposal id"
    else .ok { s with cancelled_proposals := upd s.cancelled_proposals proposal_id true }

/-- One `cast_votes` transaction: its caller, block timestamp, voter and vote
batch. -/
structure CastVotesCall where
  caller : Nat
  now : Nat
  voter_address : Nat
  proposal_votes : List ProposalVote

/-- Applies one `cast_votes` transaction to the persisted state: a failing
transaction reverts, leaving the state unchanged. -/
def applyCastVotes (oracle : Nat → Nat → Nat) (s : RoundStorage) (c : CastVotesCall) :
    RoundStorage :=
  match cast_votes oracle c.caller c.now s c.voter_address c.proposal_votes with
  | .ok s' => s'
  | .error _ => s

/-- Applies a sequence of `cast_votes` transactions in order. -/
def applyCastVotesSeq (oracle : Nat → Nat → Nat) (s : RoundStorage)
    (calls : List CastVotesCall) : RoundStorage :=
  calls.foldl (applyCastVotes oracle) s

/-- An active round with windows (10, 50, 100), winner count 2 and no
proposals: the concrete example state used by the witnesses. -/
def emptyRoundExample : RoundStorage where
  round_id := 1
  round_state := RoundState.ACTIVE
  proposal_period_start_timestamp := 10
  proposal_period_end_timestamp := 50
  vote_period_end_timestamp := 100
  winner_count := 2
  next_proposal_nonce := 1
  proposal_vote_power := fun _ => 0
  spent_voting_power := fun _ => 0
  proposer_address_registry := fun _ => 0
  cancelled_proposals := fun _ => false

/-- The example round after one proposal by proposer 7 (proposal id 1). -/
def oneProposalRoundExample : RoundStorage :=
  { emptyRoundExample with
    next_proposal_nonce := 2,
    proposer_address_registry := upd (fun _ => 0) 1 7 }

/-- An oracle granting every voter 100 voting power at every snapshot. -/
def oracleExample : Nat → Nat → Nat := fun _ _ => 100

/-- The example round after a successful finalization (terminal state). -/
def executedRoundExample : RoundStorage :=
  { emptyRoundExample with round_state := RoundState.EXECUTED }

theorem upd_same {α : Type} (f : Nat → α) (k : Nat) (v : α) : upd f k v k = v := by
  simp [upd]

theorem upd_other {α : Type} (f : Nat → α) {k x : Nat} (v : α) (h : x ≠ k) :
    upd f k v x = f x := by
  simp [upd, h]

theorem assert_round_active_of_ne (s : RoundStorage)
    (h : s.round_state ≠ RoundState.ACTIVE) :
    assert_round_active s = Except.error "Round not active" := by
  simp [assert_round_active, h]

/-- C10: the `finalize_round` entrypoint performs no caller-whitelist check:
its embedding never inspects the `caller` argument, so two calls by different
callers on identical state at the same time yield identical outcomes — the
same success or failure, the same resulting state, and the same value handed
to the execution strategy. -/
theorem finalize_round_caller_independent
    (computeRoot : Nat → Nat → List ProposalInfo → Nat) (execute : Nat → Nat → Bool)
    (caller1 caller2 now : Nat) (s : RoundStorage) :
    finalize_round computeRoot execute caller1 now s =
      finalize_round computeRoot execute caller2 now s := rfl

/-- C7: `finalize_round` fails (the transaction reverts, so the round stays
ACTIVE and all storage is unchanged) whenever the block timestamp is not
strictly greater than `vote_period_end_timestamp`. -/
theorem finalize_round_requires_vote_period_over
    (computeRoot : Nat → Nat → List ProposalInfo → Nat) (execute : Nat → Nat → Bool)
    (caller now : Nat) (s : RoundStorage) (h : ¬ s.vote_period_end_timestamp < now) :
    ∃ e, finalize_round computeRoot execute caller now s = Except.error e := by
  cases hR : assert_round_active s with
  | error e => exact ⟨e, by simp [finalize_round, hR]⟩
  | ok u => exact ⟨"Vote period has not ended", by simp [finalize_round, hR, h]⟩

/-- Witness: at time 50 ≤ vote period end 100, finalization of the example
round fails. -/
theorem finalize_round_requires_vote_period_over_witness :
    ¬ emptyRoundExample.vote_period_end_timestamp < 50 ∧
    ∃ e, finalize_round (fun _ _ _ => 0) (fun _ _ => true) 0 50 emptyRoundExample =
      Except.error e :=
  ⟨by decide,
   finalize_round_requires_vote_period_over (fun _ _ _ => 0) (fun _ _ => true) 0 50
     emptyRoundExample (by decide)⟩

/-- C3 (amended): if `finalize_round` is called on an ACTIVE round past
`vote_period_end_timestamp` and no proposals were ever created (the nonce is
still at its initial value 1), the call succeeds with an empty result and the
state is returned entirely unchanged: the round state remains ACTIVE (there
is no transition to EXECUTED) and the execution strategy is never invoked. -/
theorem finalize_round_no_proposals_ok_state_unchanged
    (computeRoot : Nat → Nat → List ProposalInfo → Nat) (execute : Nat → Nat → Bool)
    (caller now : Nat) (s : RoundStorage)
    (hactive : s.round_state = RoundState.ACTIVE)
    (hend : s.vote_period_end_timestamp < now)
    (hnonce : s.next_proposal_nonce = 1) :
    finalize_round computeRoot execute caller now s = Except.ok s := by
  simp [finalize_round, assert_round_active, hactive, hend, hnonce]

/-- Witness: finalizing the empty example round at time 101 succeeds and
leaves the state untouched. -/
theorem finalize_round_no_proposals_ok_state_unchanged_witness :
    emptyRoundExample.round_state = RoundState.ACTIVE ∧
    emptyRoundExample.vote_period_end_timestamp < 101 ∧
    emptyRoundExample.next_proposal_nonce = 1 ∧
    finalize_round (fun _ _ _ => 0) (fun _ _ => true) 0 101 emptyRoundExample =
      Except.ok emptyRoundExample :=
  ⟨by decide, by decide, by decide,
   finalize_round_no_proposals_ok_state_unchanged (fun _ _ _ => 0) (fun _ _ => true) 0 101
     emptyRoundExample (by decide) (by decide) (by decide)⟩

/-- C3 counterexample: on a concrete ACTIVE round with no proposals ever
created, called at time 101 > vote period end 100, `finalize_round` succeeds
but the round state afterwards is still ACTIVE — it does not transition to
EXECUTED as the claim states. -/
theorem finalize_round_empty_keeps_active_counterexample :
    finalize_round (fun _ _ _ => 0) (fun _ _ => true) 0 101 emptyRoundExample =
      Except.ok emptyRoundExample ∧
    emptyRoundExample.round_state = RoundState.ACTIVE ∧
    RoundState.ACTIVE ≠ RoundState.EXECUTED := by
  refine ⟨rfl, rfl, by decide⟩

/-- C5: once the round state is EXECUTED or CANCELLED (i.e. not ACTIVE),
every call to `propose`, `cast_votes`, `cancel_proposal`, `cancel_round` and
`finalize_round` fails — for any caller, timestamp and arguments — and each
failing transaction reverts, leaving the whole round storage unchanged:
terminal states are never exited. -/
theorem terminal_state_operations_fail (oracle : Nat → Nat → Nat)
    (computeRoot : Nat → Nat → List ProposalInfo → Nat) (execute : Nat → Nat → Bool)
    (caller now proposer voter pid : Nat) (votes : List ProposalVote) (s : RoundStorage)
    (h : s.round_state ≠ RoundState.ACTIVE) :
    (∃ e, propose caller now s proposer = Except.error e) ∧
    (∃ e, cast_votes oracle caller now s voter votes = Except.error e) ∧
    (∃ e, cancel_proposal caller s pid = Except.error e) ∧
    (∃ e, cancel_round caller s = Except.error e) ∧
    (∃ e, finalize_round computeRoot execute caller now s = Except.error e) := by
  have hR := assert_round_active_of_ne s h
  refine ⟨?_, ?_, ?_, ?_, ?_⟩
  · cases hA : assert_valid_auth_strategy caller with
    | error e => exact ⟨e, by simp [propose, hA]⟩
    | ok u => exact ⟨"Round not active", by simp [propose, hA, hR]⟩
  · cases hA : assert_valid_auth_strategy caller with
    | error e => exact ⟨e, by simp [cast_votes, hA]⟩
    | ok u => exact ⟨"Round not active", by simp [cast_votes, hA, hR]⟩
  · cases hA : assert_valid_auth_strategy caller with
    | error e => exact ⟨e, by simp [cancel_proposal, hA]⟩
    | ok u => exact ⟨"Round not active", by simp [cancel_proposal, hA, hR]⟩
  · cases hA : assert_valid_auth_strategy caller with
    | error e => exact ⟨e, by simp [cancel_round, hA]⟩
    | ok u => exact ⟨"Round not active", by simp [cancel_round, hA, hR]⟩
  · exact ⟨"Round not active", by simp [finalize_round, hR]⟩

/-- C8: in an ACTIVE round, with a whitelisted caller, cancelling an existing
not-yet-cancelled proposal `pid` succeeds and sets its cancelled flag; a
second `cancel_proposal` on the same proposal then fails rather than
no-oping, and `cancel_proposal` on a proposal id `q` with zero proposer
address (i.e. one that does not exist) fails; each failing transaction
reverts, leaving all storage unchanged. -/
theorem cancel_proposal_correctness (caller : Nat) (s : RoundStorage) (pid q : Nat)
    (hauth : is_valid_auth_strategy caller 0 2 = true)
    (hactive : s.round_state = RoundState.ACTIVE)
    (hnotc : s.cancelled_proposals pid = false)
    (hexists : s.proposer_address_registry pid ≠ 0)
    (hq : s.proposer_address_registry q = 0) :
    cancel_proposal caller s pid =
      Except.ok { s with cancelled_proposals := upd s.cancelled_proposals pid true } ∧
    upd s.cancelled_proposals pid true pid = true ∧
    (∃ e, cancel_proposal caller
        { s with cancelled_proposals := upd s.cancelled_proposals pid true } pid =
        Except.error e) ∧
    (∃ e, cancel_proposal caller s q = Except.error e) := by
  have hA : assert_valid_auth_strategy caller = Except.ok () := by
    simp [assert_valid_auth_strategy, hauth]
  have hR : assert_round_active s = Except.ok () := by
    simp [assert_round_active, hactive]
  refine ⟨?_, ?_, ?_, ?_⟩
  · simp [cancel_proposal, hA, hR, hnotc, hexists]
  · simp [upd]
  · refine ⟨"Proposal already cancelled", ?_⟩
    simp [cancel_proposal, hA, assert_round_active, hactive, upd]
  · by_cases hcq : s.cancelled_proposals q = true
    · exact ⟨"Proposal already cancelled", by simp [cancel_proposal, hA, hR, hcq]⟩
    · exact ⟨"Invalid proposal id",
        by simp [cancel_proposal, hA, hR, hq, Bool.not_eq_true _ ▸ hcq]⟩

/-- Witness: cancelling proposal 1 of the one-proposal example round through
the transaction auth strategy, then cancelling it again, and cancelling the
nonexistent proposal 5. -/
theorem cancel_proposal_correctness_witness :
    is_valid_auth_strategy ETH_TX_AUTH_STRATEGY 0 2 = true ∧
    (cancel_proposal ETH_TX_AUTH_STRATEGY oneProposalRoundExample 1 =
      Except.ok { oneProposalRoundExample with
        cancelled_proposals := upd oneProposalRoundExample.cancelled_proposals 1 true } ∧
    upd oneProposalRoundExample.cancelled_proposals 1 true 1 = true ∧
    (∃ e, cancel_proposal ETH_TX_AUTH_STRATEGY
        { oneProposalRoundExample with
          cancelled_proposals := upd oneProposalRoundExample.cancelled_proposals 1 true } 1 =
        Except.error e) ∧
    (∃ e, cancel_proposal ETH_TX_AUTH_STRATEGY oneProposalRoundExample 5 =
        Except.error e)) :=
  ⟨by decide,
   cancel_proposal_correctness ETH_TX_AUTH_STRATEGY oneProposalRoundExample 1 5
     (by decide) (by decide) (by decide) (by decide) (by decide)⟩

/-- C9 (code bug): the embedded `cancel_proposal` takes no identity of the
party on whose behalf cancellation is requested — its only authorization
check is that the caller is one of the two whitelisted auth strategies, and
it never reads or compares the stored proposer address except for the
existence test.  Concretely, a cancellation of proposal 1 (whose recorded
proposer is address 7) submitted through the signature auth strategy with no
proposer credential at all succeeds. -/
theorem cancel_proposal_lacks_proposer_check :
    oneProposalRoundExample.proposer_address_registry 1 = 7 ∧
    cancel_proposal ETH_SIG_AUTH_STRATEGY oneProposalRoundExample 1 =
      Except.ok { oneProposalRoundExample with
        cancelled_proposals := upd oneProposalRoundExample.cancelled_proposals 1 true } := by
  exact ⟨rfl, rfl⟩

/-- C2 (code bug): the per-entry existence check in `cast_proposal_votes`
reads `proposal_votes.proposal_id` — the proposal id of batch entry 0 — not
the id of the current entry, so a later entry naming a nonexistent proposal
is not rejected.  Concretely, on the one-proposal example round (proposal 1
exists, proposal 5 has zero proposer address, voter 9 has 100 power) the
batch [(1, 80), (5, 10)] succeeds in full: proposal 1 gains 80 power, the
nonexistent proposal 5 gains 10 power and the voter ledger records 90 spent,
whereas the claim requires the whole call to fail with no state change. -/
theorem cast_votes_nonexistent_second_entry_bug :
    oneProposalRoundExample.proposer_address_registry 5 = 0 ∧
    ∃ s', cast_votes oracleExample ETH_TX_AUTH_STRATEGY 60 oneProposalRoundExample 9
        [⟨1, 80⟩, ⟨5, 10⟩] = Except.ok s' ∧
      s'.proposal_vote_power 1 = 80 ∧ s'.proposal_vote_power 5 = 10 ∧
      s'.spent_voting_power 9 = 90 :=
  ⟨rfl, _, rfl, rfl, rfl, rfl⟩

/-- C4 (code bug): `populate_proposal_info_arr` reports `current_index + 1`
at its terminal call, one more than the number of entries it wrote.  On the
one-proposal example round (nonce 2, proposal 1 non-cancelled), the call
`finalize_round` makes builds the correct one-element list for proposal 1 but
reports its length as 2, whereas the claim requires the reported length to
equal the number of non-cancelled proposals (here 1); the extra slot is
unconstrained Cairo memory. -/
theorem populate_proposal_info_arr_offbyone_bug :
    populate_proposal_info_arr oneProposalRoundExample 2 1 0 [] = ([⟨1, 7, 0⟩], 2) ∧
    [(⟨1, 7, 0⟩ : ProposalInfo)].length = 1 :=
  ⟨rfl, rfl⟩

/-- Witness: on the concrete EXECUTED round all five operations fail. -/
theorem terminal_state_operations_fail_witness :
    executedRoundExample.round_state ≠ RoundState.ACTIVE ∧
    ((∃ e, propose 0 60 executedRoundExample 7 = Except.error e) ∧
     (∃ e, cast_votes oracleExample 0 60 executedRoundExample 9 [] = Except.error e) ∧
     (∃ e, cancel_proposal 0 executedRoundExample 1 = Except.error e) ∧
     (∃ e, cancel_round 0 executedRoundExample = Except.error e) ∧
     (∃ e, finalize_round (fun _ _ _ => 0) (fun _ _ => true) 0 60 executedRoundExample =
        Except.error e)) :=
  ⟨by decide,
   terminal_state_operations_fail oracleExample (fun _ _ _ => 0) (fun _ _ => true)
     0 60 7 9 1 [] executedRoundExample (by decide)⟩

theorem cast_proposal_votes_spent_bound (rest : List ProposalVote)
    (s : RoundStorage) (voter snap : Nat) (full : List ProposalVote)
    (total remaining : Nat) (s' : RoundStorage)
    (h : cast_proposal_votes s voter snap full rest total remaining = Except.ok s')
    (hrem : remaining ≤ total) (hspent : s.spent_voting_power voter ≤ total) :
    (∀ w, w ≠ voter → s'.spent_voting_power w = s.spent_voting_power w) ∧
    s'.spent_voting_power voter ≤ total ∧
    s'.proposal_period_end_timestamp = s.proposal_period_end_timestamp := by
  induction rest generalizing s remaining with
  | nil =>
    simp only [cast_proposal_votes, Except.ok.injEq] at h
    subst h
    exact ⟨fun w _ => rfl, hspent, rfl⟩
  | cons pv rest ih =>
    simp only [cast_proposal_votes] at h
    split at h
    · simp at h
    split at h
    · simp at h
    split at h
    · simp at h
    split at h
    case isTrue hle =>
      split at h
      · simp at h
      case h_2 newP heqadd =>
        split at h
        · simp at h
        case h_2 newRem heqsub1 =>
          split at h
          · simp at h
          case h_2 newSpent heqsub2 =>
            rw [SafeUint256.sub_le, if_pos hle] at heqsub1
            simp only [Except.ok.injEq] at heqsub1
            have hcond : newRem ≤ total := by omega
            rw [SafeUint256.sub_le, if_pos hcond] at heqsub2
            simp only [Except.ok.injEq] at heqsub2
            have hspent1 : (upd s.spent_voting_power voter newSpent) voter ≤ total := by
              rw [upd_same]; omega
            obtain ⟨ihA, ihB, ihC⟩ := ih _ newRem h (by omega) hspent1
            refine ⟨fun w hw => ?_, ihB, ihC⟩
            rw [ihA w hw]
            exact upd_other _ _ hw
    case isFalse hle => simp at h

theorem cast_proposal_votes_exceed_fails (rest : List ProposalVote)
    (s : RoundStorage) (voter snap : Nat) (full : List ProposalVote)
    (total remaining : Nat)
    (hgt : remaining < (rest.map ProposalVote.voting_power).sum) :
    ∃ e, cast_proposal_votes s voter snap full rest total remaining = Except.error e := by
  induction rest generalizing s remaining with
  | nil => simp at hgt
  | cons pv rest ih =>
    by_cases h1 : s.proposer_address_registry ((full.head?.getD ⟨0, 0⟩)).proposal_id = 0
    · exact ⟨"Proposal does not exist", by simp [cast_proposal_votes, h1]⟩
    by_cases h2 : s.cancelled_proposals pv.proposal_id = true
    · exact ⟨"Proposal has been cancelled", by simp [cast_proposal_votes, h1, h2]⟩
    by_cases h3 : pv.voting_power = 0
    · exact ⟨"Voting power must be greater than zero", by simp [cast_proposal_votes, h1, h2, h3]⟩
    by_cases h4 : pv.voting_power ≤ remaining
    · by_cases h5 : pv.voting_power + s.proposal_vote_power pv.proposal_id < U256LIMIT
      · by_cases h6 : remaining - pv.voting_power ≤ total
        · have hgt' : remaining - pv.voting_power < (rest.map ProposalVote.voting_power).sum := by
            simp only [List.map_cons, List.sum_cons] at hgt
            omega
          obtain ⟨e, he⟩ := ih
            { s with
              proposal_vote_power := upd s.proposal_vote_power pv.proposal_id
                (pv.voting_power + s.proposal_vote_power pv.proposal_id),
              spent_voting_power := upd s.spent_voting_power voter
                (total - (remaining - pv.voting_power)) }
            (remaining - pv.voting_power) hgt'
          exact ⟨e, by
            simp [cast_proposal_votes, h1, h2, h3, h4, SafeUint256.add, SafeUint256.sub_le,
              h5, h6, he]⟩
        · exact ⟨"SafeUint256: underflow", by
            simp [cast_proposal_votes, h1, h2, h3, h4, SafeUint256.add, SafeUint256.sub_le,
              h5, h6]⟩
      · exact ⟨"SafeUint256: overflow", by
          simp [cast_proposal_votes, h1, h2, h3, h4, SafeUint256.add, h5]⟩
    · exact ⟨"Not enough voting power remaining for user", by
        simp [cast_proposal_votes, h1, h2, h3, h4]⟩

theorem cast_votes_exceed_fails (oracle : Nat → Nat → Nat) (caller now voter : Nat)
    (votes : List ProposalVote) (s : RoundStorage)
    (hgt : oracle s.proposal_period_end_timestamp voter <
      s.spent_voting_power voter + (votes.map ProposalVote.voting_power).sum) :
    ∃ e, cast_votes oracle caller now s voter votes = Except.error e := by
  cases hA : assert_valid_auth_strategy caller with
  | error e => exact ⟨e, by simp [cast_votes, hA]⟩
  | ok u =>
    cases hR : assert_round_active s with
    | error e => exact ⟨e, by simp [cast_votes, hA, hR]⟩
    | ok u2 =>
      by_cases h1 : now < s.vote_period_end_timestamp
      · by_cases h2 : s.proposal_period_end_timestamp + 1 ≤ now
        · by_cases h3 : oracle s.proposal_period_end_timestamp voter = 0
          · exact ⟨"No voting power for user",
              by simp [cast_votes, hA, hR, h1, h2, get_user_voting_power, h3]⟩
          · by_cases h4 : s.spent_voting_power voter ≤ oracle s.proposal_period_end_timestamp voter
            · obtain ⟨e, he⟩ := cast_proposal_votes_exceed_fails votes s voter
                s.proposal_period_end_timestamp votes
                (oracle s.proposal_period_end_timestamp voter)
                (oracle s.proposal_period_end_timestamp voter - s.spent_voting_power voter)
                (by omega)
              exact ⟨e, by simp [cast_votes, hA, hR, h1, h2, get_user_voting_power, h3,
                SafeUint256.sub_le, h4, he]⟩
            · exact ⟨"SafeUint256: underflow", by simp [cast_votes, hA, hR, h1, h2,
                get_user_voting_power, h3, SafeUint256.sub_le, h4]⟩
        · exact ⟨"Vote period has not started yet", by simp [cast_votes, hA, hR, h1, h2]⟩
      · exact ⟨"Vote period has ended", by simp [cast_votes, hA, hR, h1]⟩

theorem cast_votes_preserves_spent_inv (oracle : Nat → Nat → Nat)
    (caller now voter : Nat) (votes : List ProposalVote) (s s' : RoundStorage)
    (h : cast_votes oracle caller now s voter votes = Except.ok s')
    (hinv : ∀ w, s.spent_voting_power w ≤ oracle s.proposal_period_end_timestamp w) :
    ∀ w, s'.spent_voting_power w ≤ oracle s'.proposal_period_end_timestamp w := by
  simp only [cast_votes] at h
  split at h
  · simp at h
  split at h
  · simp at h
  split at h
  case isTrue h1 =>
    split at h
    case isTrue h2 =>
      split at h
      · simp at h
      split at h
      · simp at h
      case h_2 remaining heq =>
        simp only [get_user_voting_power] at heq h
        rw [SafeUint256.sub_le] at heq
        rw [if_pos (hinv voter)] at heq
        simp only [Except.ok.injEq] at heq
        obtain ⟨hA, hB, hC⟩ := cast_proposal_votes_spent_bound votes s voter
          s.proposal_period_end_timestamp votes
          (oracle s.proposal_period_end_timestamp voter)
          remaining s' h (by omega) (hinv voter)
        intro w
        rw [hC]
        by_cases hw : w = voter
        · subst hw; exact hB
        · rw [hA w hw]; exact hinv w
    case isFalse h2 => simp at h
  case isFalse h1 => simp at h

theorem applyCastVotesSeq_preserves_spent_inv (oracle : Nat → Nat → Nat)
    (calls : List CastVotesCall) (s : RoundStorage)
    (hinv : ∀ w, s.spent_voting_power w ≤ oracle s.proposal_period_end_timestamp w) :
    ∀ w, (applyCastVotesSeq oracle s calls).spent_voting_power w ≤
      oracle (applyCastVotesSeq oracle s calls).proposal_period_end_timestamp w := by
  induction calls generalizing s with
  | nil => exact hinv
  | cons c calls ih =>
    have hstep : applyCastVotesSeq oracle s (c :: calls) =
        applyCastVotesSeq oracle (applyCastVotes oracle s c) calls := rfl
    rw [hstep]
    apply ih
    unfold applyCastVotes
    cases hc : cast_votes oracle c.caller c.now s c.voter_address c.proposal_votes with
    | ok s2 =>
      exact cast_votes_preserves_spent_inv oracle c.caller c.now c.voter_address
        c.proposal_votes s s2 hc hinv
    | error e => exact hinv

/-- C1: over any sequence of `cast_votes` transactions (failed ones revert and
leave the state unchanged), every voter's recorded `spent_voting_power` never
exceeds the oracle-reported total voting power at the fixed snapshot timestamp
`proposal_period_end_timestamp`; and from any state reached this way, a
`cast_votes` call whose batch would push cumulative spend (prior ledger spend
plus in-call spend) above that total fails, and applying it as a transaction
leaves the voter ledger and every proposal's accumulated power unchanged. -/
theorem cast_votes_spent_le_oracle_total (oracle : Nat → Nat → Nat)
    (calls : List CastVotesCall) (s : RoundStorage)
    (hinv : ∀ w, s.spent_voting_power w ≤ oracle s.proposal_period_end_timestamp w) :
    (∀ w, (applyCastVotesSeq oracle s calls).spent_voting_power w ≤
        oracle (applyCastVotesSeq oracle s calls).proposal_period_end_timestamp w) ∧
    (∀ c : CastVotesCall,
        oracle (applyCastVotesSeq oracle s calls).proposal_period_end_timestamp
            c.voter_address <
          (applyCastVotesSeq oracle s calls).spent_voting_power c.voter_address +
            (c.proposal_votes.map ProposalVote.voting_power).sum →
        (∃ e, cast_votes oracle c.caller c.now (applyCastVotesSeq oracle s calls)
            c.voter_address c.proposal_votes = Except.error e) ∧
        applyCastVotes oracle (applyCastVotesSeq oracle s calls) c =
          applyCastVotesSeq oracle s calls) := by
  refine ⟨applyCastVotesSeq_preserves_spent_inv oracle calls s hinv, ?_⟩
  intro c hc
  obtain ⟨e, he⟩ := cast_votes_exceed_fails oracle c.caller c.now c.voter_address
    c.proposal_votes (applyCastVotesSeq oracle s calls) hc
  exact ⟨⟨e, he⟩, by simp [applyCastVotes, he]⟩

/-- Witness: one voter with 100 oracle power casting 80 on proposal 1;
starting from an all-zero ledger the invariant holds and any over-spending
batch fails. -/
theorem cast_votes_spent_le_oracle_total_witness :
    (∀ w, (applyCastVotesSeq oracleExample oneProposalRoundExample
        [⟨ETH_TX_AUTH_STRATEGY, 60, 9, [⟨1, 80⟩]⟩]).spent_voting_power w ≤
        oracleExample (applyCastVotesSeq oracleExample oneProposalRoundExample
          [⟨ETH_TX_AUTH_STRATEGY, 60, 9, [⟨1, 80⟩]⟩]).proposal_period_end_timestamp w) ∧
    (∀ c : CastVotesCall,
        oracleExample (applyCastVotesSeq oracleExample oneProposalRoundExample
            [⟨ETH_TX_AUTH_STRATEGY, 60, 9, [⟨1, 80⟩]⟩]).proposal_period_end_timestamp
            c.voter_address <
          (applyCastVotesSeq oracleExample oneProposalRoundExample
            [⟨ETH_TX_AUTH_STRATEGY, 60, 9, [⟨1, 80⟩]⟩]).spent_voting_power c.voter_address +
            (c.proposal_votes.map ProposalVote.voting_power).sum →
        (∃ e, cast_votes oracleExample c.caller c.now
            (applyCastVotesSeq oracleExample oneProposalRoundExample
              [⟨ETH_TX_AUTH_STRATEGY, 60, 9, [⟨1, 80⟩]⟩])
            c.voter_address c.proposal_votes = Except.error e) ∧
        applyCastVotes oracleExample
            (applyCastVotesSeq oracleExample oneProposalRoundExample
              [⟨ETH_TX_AUTH_STRATEGY, 60, 9, [⟨1, 80⟩]⟩]) c =
          applyCastVotesSeq oracleExample oneProposalRoundExample
            [⟨ETH_TX_AUTH_STRATEGY, 60, 9, [⟨1, 80⟩]⟩]) :=
  cast_votes_spent_le_oracle_total oracleExample
    [⟨ETH_TX_AUTH_STRATEGY, 60, 9, [⟨1, 80⟩]⟩] oneProposalRoundExample
    (fun _ => Nat.zero_le _)

/-- C6: a successful `cast_votes` call requires the block timestamp to lie
strictly between `proposal_period_end_timestamp` (the snapshot: the instant
proposals closed) and `vote_period_end_timestamp`; and the only oracle value
the call depends on is the voter's power at the snapshot timestamp
`proposal_period_end_timestamp`, fetched once per call — replacing the oracle
by any other oracle that agrees at that single point leaves the call's
outcome bit-for-bit unchanged. -/
theorem cast_votes_window_and_single_oracle_fetch
    (oracle oracle2 : Nat → Nat → Nat) (caller now voter : Nat)
    (votes : List ProposalVote) (s : RoundStorage)
    (hok : ∃ s', cast_votes oracle caller now s voter votes = Except.ok s')
    (hagree : oracle2 s.proposal_period_end_timestamp voter =
              oracle s.proposal_period_end_timestamp voter) :
    (s.proposal_period_end_timestamp < now ∧ now < s.vote_period_end_timestamp) ∧
    cast_votes oracle2 caller now s voter votes =
      cast_votes oracle caller now s voter votes := by
  constructor
  · obtain ⟨s', h⟩ := hok
    simp only [cast_votes] at h
    split at h
    · simp at h
    split at h
    · simp at h
    split at h
    case isTrue h1 =>
      split at h
      case isTrue h2 => exact ⟨by omega, h1⟩
      case isFalse h2 => simp at h
    case isFalse h1 => simp at h
  · simp only [cast_votes, get_user_voting_power, hagree]

/-- Witness: two oracles agreeing at the snapshot (50, voter 9) produce the
same outcome for a successful concrete call in the vote window. -/
theorem cast_votes_window_and_single_oracle_fetch_witness :
    (oneProposalRoundExample.proposal_period_end_timestamp < 60 ∧
     60 < oneProposalRoundExample.vote_period_end_timestamp) ∧
    cast_votes (fun t _ => if t = 50 then 100 else 0) ETH_TX_AUTH_STRATEGY 60
        oneProposalRoundExample 9 [⟨1, 80⟩] =
      cast_votes oracleExample ETH_TX_AUTH_STRATEGY 60 oneProposalRoundExample 9 [⟨1, 80⟩] :=
  cast_votes_window_and_single_oracle_fetch oracleExample
    (fun t _ => if t = 50 then 100 else 0) ETH_TX_AUTH_STRATEGY 60 9 [⟨1, 80⟩]
    oneProposalRoundExample ⟨_, rfl⟩ (by decide)
